import Mathlib

/-!
# Capture view (src/views/capture.c)

A shallow embedding of the tethered-capture view: the session file name
generator, the session (job code) initialisation, the film id accessor and
the post-expose dispatch of the render hook.

Conventions.
* C strings are `String`; a `char *` that the code itself tests against
  NULL (`jobcode`) is an `Option String`.
* Calls into the host (film rolls, configuration store, logging, glib) are
  not part of this file of the repository; they are fields of `Host`, and
  every call with an effect is recorded in the `trace` of the `World`.
* A `const gchar *` obtained from `dt_variables_get_result` points at the
  result text held in the expansion context. Where the code copies it at once
  (`g_strdup`, `sprintf`) it is a value; where the code keeps the pointer, it
  is read from the context as the context is at the time of the read.
* The collision loop may run forever, so it takes a fuel argument: the
  number of rounds of the `do ... while` it may perform.
-/

namespace Capture

/-! ## Variable expansion (common/variables.h) -/

/-- Modelled from the spec: the variable-expansion context
`dt_variables_params_t` of common/variables.h, which is not under src/. The
capture view writes its `filename` and `jobcode` fields directly; the
sequence counter and the result text live behind `dt_variables_expand`,
`dt_variables_reset_sequence` and `dt_variables_get_result`. The context
holds one result text, which every expansion overwrites. The counter is kept
unbounded. -/
structure dt_variables_params_t where
  filename : Option String
  jobcode : Option String
  sequence : Nat
  result : String
deriving DecidableEq

/-- The text substitution performed by the variable expander: the expansion
of a source string for a given file name, job code and sequence number. -/
abbrev Subst := Option String → Option String → Nat → String → String

/-- Modelled from the spec: `dt_variables_expand(params, string, iterate)` of
common/variables.c, which is not under src/: with `iterate` the sequence
counter is incremented first, then the source string is expanded and kept as
the result. -/
def dt_variables_expand (subst : Subst) (vp : dt_variables_params_t) (string : String)
    (iterate : Bool) : dt_variables_params_t :=
  let seq := if iterate then vp.sequence + 1 else vp.sequence
  { vp with sequence := seq, result := subst vp.filename vp.jobcode seq string }

/-- Modelled from the spec: `dt_variables_get_result(params)` of
common/variables.c: the pointer to the result text held in the context, not a
copy. Reading through it gives the text of the latest expansion of the
context it is read from. -/
def dt_variables_get_result (vp : dt_variables_params_t) : String :=
  vp.result

/-- Modelled from the spec: `dt_variables_reset_sequence(params)` of
common/variables.c, which sets the sequence counter back to zero. -/
def dt_variables_reset_sequence (vp : dt_variables_params_t) : dt_variables_params_t :=
  { vp with sequence := 0 }

/-! ## Film rolls and the view record -/

/-- The fields of the host's `dt_film_t` that the capture view reads or
writes. -/
structure dt_film_t where
  id : Int
  dirname : String
deriving DecidableEq

/-- The value of the pointer `cv->film`: NULL, a pointer to a film record, or
a pointer whose record has been released with `g_free` (still non-NULL). -/
inductive film_ptr where
  | null : film_ptr
  | live (f : dt_film_t) : film_ptr
  | freed : film_ptr
deriving DecidableEq

/-- Module data of the capture view (`dt_capture_t`). -/
structure dt_capture_t where
  image_id : Nat
  image_over : Nat
  mode : Int
  vp : dt_variables_params_t
  basedirectory : String
  subdirectory : String
  filenamepattern : String
  path : String
  jobcode : Option String
  film : film_ptr
deriving DecidableEq

/-! ## Session file name -/

/-- The `do ... while` of `dt_capture_view_get_session_filename`: expand the
file name pattern with the next sequence number and test the candidate path
again, for at most `fuel` rounds. Both `storage` and `file` are pointers
obtained from `dt_variables_get_result` on the one context `cv->vp`; neither
is copied, so `g_build_path` reads both from the context as the last
expansion left it. -/
def session_filename_loop (subst : Subst) (g_build_path : String → String → String)
    (g_file_test : String → Bool) (pattern : String) :
    Nat → dt_variables_params_t → Option dt_variables_params_t
  | 0, _ => none
  | fuel + 1, vp =>
    let vp1 := dt_variables_expand subst vp pattern true
    let file := dt_variables_get_result vp1
    let storage := dt_variables_get_result vp1
    let fullfile := g_build_path storage file
    if g_file_test fullfile = true then
      session_filename_loop subst g_build_path g_file_test pattern fuel vp1
    else
      some vp1

/-- `dt_capture_view_get_session_filename(view, filename)`: the returned file
name together with the view record, whose expansion context has advanced.
`none` when the loop is still running after `fuel` rounds.

`storage` is the pointer returned by `dt_variables_get_result` after the
expansion of `cv->path` (line 171). It is kept, not copied, across the
expansion of the file name pattern (line 173), so at line 177 it is read from
the context after that expansion. -/
def dt_capture_view_get_session_filename (subst : Subst)
    (g_build_path : String → String → String) (g_file_test : String → Bool)
    (fuel : Nat) (cv : dt_capture_t) (filename : String) : Option (String × dt_capture_t) :=
  let vp0 := { cv.vp with filename := some filename }
  let vp1 := dt_variables_expand subst vp0 cv.path false
  let vp2 := dt_variables_expand subst vp1 cv.filenamepattern true
  let storage := dt_variables_get_result vp2
  let file := dt_variables_get_result vp2
  let fullfile := g_build_path storage file
  if g_file_test fullfile = true then
    (session_filename_loop subst g_build_path g_file_test cv.filenamepattern fuel vp2).map
      (fun vp => (dt_variables_get_result vp, { cv with vp := vp }))
  else
    some (file, { cv with vp := vp2 })

/-- Conversion of a C `int` to `uint32_t`. -/
def to_uint32 (x : Int) : Int :=
  x % 4294967296

/-- `dt_capture_view_get_film_id(view)`: the returned `uint32_t` together with
the view record as the call leaves it. The result is `none` when the call
reads a film record that has been released. -/
def dt_capture_view_get_film_id (cv : dt_capture_t) : Option Int × dt_capture_t :=
  match cv.film with
  | film_ptr.live f => (some (to_uint32 f.id), cv)
  | film_ptr.freed => (none, cv)
  -- else return first film roll.
  | film_ptr.null => (some 1, cv)

/-- `dt_capture_view_get_jobcode(view)`. -/
def dt_capture_view_get_jobcode (cv : dt_capture_t) : Option String :=
  cv.jobcode

/-! ## Session initialisation -/

/-- Calls of `dt_capture_view_set_jobcode` into the host that have an effect
outside the view record, in the order they are made. -/
inductive Event where
  | film_remove (id : Int) : Event
  | film_cleanup (f : dt_film_t) : Event
  | conf_set_current_filmroll (v : Int) : Event
  | mkdir_with_parents (path : String) : Event
  | log_failed_session_path (dirname : String) : Event
  | film_new (f : dt_film_t) (directory : String) : Event
  | film_open (id : Int) : Event
  | log_new_session (jobcode : Option String) (id : Int) : Event
deriving DecidableEq

/-- What the capture view sees of the world outside: the configuration key
`plugins/capture/current_filmroll` and the calls made so far. -/
structure World where
  current_filmroll : Int
  trace : List Event
deriving DecidableEq

/-- The host functions called by `dt_capture_view_set_jobcode`; none of them
is defined in this file of the repository. A function that fills a film
record returns its return code and the record. -/
structure Host where
  subst : Subst
  g_build_path : String → String → String
  dt_film_init : dt_film_t
  dt_film_is_empty : Int → Int
  dt_film_open2 : dt_film_t → Int × dt_film_t
  g_mkdir_with_parents : String → Int
  dt_film_new : dt_film_t → String → Int × dt_film_t

/-- Record a call in the trace. -/
def World.emit (w : World) (e : Event) : World :=
  { w with trace := w.trace ++ [e] }

/-- `dt_conf_get_int("plugins/capture/current_filmroll")`. -/
def dt_conf_get_current_filmroll (w : World) : Int :=
  w.current_filmroll

/-- `dt_conf_set_int("plugins/capture/current_filmroll", v)`. -/
def dt_conf_set_current_filmroll (w : World) (v : Int) : World :=
  { current_filmroll := v, trace := w.trace ++ [Event.conf_set_current_filmroll v] }

/-- First block of `dt_capture_view_set_jobcode`: take care of the previous
capture filmroll. `none` when `cv->film` points to a released record, which
the block reads. -/
def previous_filmroll (h : Host) (w : World) : film_ptr → Option World
  | film_ptr.null => some w
  | film_ptr.live f =>
    if h.dt_film_is_empty f.id ≠ 0 then
      some (w.emit (Event.film_remove f.id))
    else
      some (w.emit (Event.film_cleanup f))
  | film_ptr.freed => none

/-- Second block of `dt_capture_view_set_jobcode`: with a stored filmroll
(`current_filmroll >= 0`) try to reopen it into the freshly initialised film
record; on failure reset the configuration key. Returns the view record, the
film record and the world. -/
def reopen_filmroll (h : Host) (w : World) (cv : dt_capture_t) :
    dt_capture_t × dt_film_t × World :=
  let film := h.dt_film_init
  let current_filmroll := dt_conf_get_current_filmroll w
  if current_filmroll ≥ 0 then
    let r := h.dt_film_open2 { film with id := current_filmroll }
    if r.1 ≠ 0 then
      (cv, r.2, dt_conf_set_current_filmroll w (-1))
    else
      ({ cv with path := r.2.dirname }, r.2, w)
  else
    (cv, film, w)

/-- Third block of `dt_capture_view_set_jobcode`, entered when the
configuration key is -1: set the job code, reset the sequence, build and
create the session directory and make the new filmroll. -/
def new_session (h : Host) (w : World) (cv : dt_capture_t) (film : dt_film_t) (name : String) :
    dt_capture_t × World :=
  let jobcode := some name
  let vp1 := { cv.vp with jobcode := jobcode }
  let vp2 := dt_variables_reset_sequence vp1
  let path := h.g_build_path cv.basedirectory cv.subdirectory
  let vp3 := dt_variables_expand h.subst vp2 path false
  let film1 := { film with dirname := dt_variables_get_result vp3 }
  let cv1 := { cv with jobcode := jobcode, vp := vp3, path := path }
  let w1 := w.emit (Event.mkdir_with_parents film1.dirname)
  if h.g_mkdir_with_parents film1.dirname = -1 then
    ({ cv1 with film := film_ptr.freed }, w1.emit (Event.log_failed_session_path film1.dirname))
  else
    let r := h.dt_film_new film1 film1.dirname
    let w2 := w1.emit (Event.film_new film1 film1.dirname)
    let w3 :=
      if r.1 > 0 then
        dt_conf_set_current_filmroll (w2.emit (Event.film_open r.2.id)) r.2.id
      else
        w2
    ({ cv1 with film := film_ptr.live r.2 }, w3.emit (Event.log_new_session cv1.jobcode r.2.id))

/-- `dt_capture_view_set_jobcode(view, name)`. -/
def dt_capture_view_set_jobcode (h : Host) (w : World) (cv : dt_capture_t) (name : String) :
    Option (dt_capture_t × World) :=
  match previous_filmroll h w cv.film with
  | none => none
  | some w1 =>
    let r := reopen_filmroll h w1 cv
    if dt_conf_get_current_filmroll r.2.2 = -1 then
      some (new_session h r.2.2 r.1 r.2.1 name)
    else
      some ({ r.1 with film := film_ptr.live r.2.1 }, r.2.2)

/-- The calls made by the first block for the previous film pointer. -/
def previous_filmroll_events (h : Host) : film_ptr → List Event
  | film_ptr.live f =>
    if h.dt_film_is_empty f.id ≠ 0 then [Event.film_remove f.id] else [Event.film_cleanup f]
  | _ => []

/-- The return code of reopening the stored filmroll `id`. -/
def reopen_code (h : Host) (id : Int) : Int :=
  (h.dt_film_open2 { h.dt_film_init with id := id }).1

/-- The configuration key is -1 at the second check: it was -1 on entry, or it
named a stored filmroll that failed to open. -/
def starts_new_session (h : Host) (w : World) : Prop :=
  w.current_filmroll = -1 ∨ (w.current_filmroll ≥ 0 ∧ reopen_code h w.current_filmroll ≠ 0)

instance (h : Host) (w : World) : Decidable (starts_new_session h w) := by
  unfold starts_new_session; infer_instance

/-- The session directory of a new session with job code `name`: the
expansion, with the job code set and the sequence reset, of the base
directory joined with the subdirectory pattern. -/
def session_dirname (h : Host) (cv : dt_capture_t) (name : String) : String :=
  dt_variables_get_result
    (dt_variables_expand h.subst
      (dt_variables_reset_sequence { cv.vp with jobcode := some name })
      (h.g_build_path cv.basedirectory cv.subdirectory) false)

/-- The film record that reaches the new-session block: freshly initialised,
or as the failed reopening of the stored filmroll left it. -/
def session_film (h : Host) (w : World) : dt_film_t :=
  if w.current_filmroll ≥ 0 then
    (h.dt_film_open2 { h.dt_film_init with id := w.current_filmroll }).2
  else
    h.dt_film_init

/-- The calls that follow `g_mkdir_with_parents` in the new-session block. -/
def after_mkdir_events (h : Host) (cv : dt_capture_t) (film : dt_film_t) (name : String) :
    List Event :=
  if h.g_mkdir_with_parents (session_dirname h cv name) = -1 then
    [Event.log_failed_session_path (session_dirname h cv name)]
  else
    Event.film_new { film with dirname := session_dirname h cv name } (session_dirname h cv name) ::
      ((if (h.dt_film_new { film with dirname := session_dirname h cv name }
              (session_dirname h cv name)).1 > 0 then
          [Event.film_open
              (h.dt_film_new { film with dirname := session_dirname h cv name }
                (session_dirname h cv name)).2.id,
            Event.conf_set_current_filmroll
              (h.dt_film_new { film with dirname := session_dirname h cv name }
                (session_dirname h cv name)).2.id]
        else []) ++
        [Event.log_new_session (some name)
          (h.dt_film_new { film with dirname := session_dirname h cv name }
            (session_dirname h cv name)).2.id])

/-- The directories passed to `g_mkdir_with_parents` in a trace. -/
def mkdir_calls (t : List Event) : List String :=
  t.filterMap (fun e => match e with
    | Event.mkdir_with_parents path => some path
    | _ => none)

/-- The film records and directories passed to `dt_film_new` in a trace. -/
def film_new_calls (t : List Event) : List (dt_film_t × String) :=
  t.filterMap (fun e => match e with
    | Event.film_new f directory => some (f, directory)
    | _ => none)

/-- The values written to `plugins/capture/current_filmroll` in a trace. -/
def conf_writes (t : List Event) : List Int :=
  t.filterMap (fun e => match e with
    | Event.conf_set_current_filmroll v => some v
    | _ => none)

/-- The messages logged with `dt_control_log` in a trace. -/
def log_calls (t : List Event) : List Event :=
  t.filter (fun e => match e with
    | Event.log_failed_session_path _ => true
    | Event.log_new_session _ _ => true
    | _ => false)

/-! ## Render hook -/

/-- What `expose` reads of a library module (`dt_lib_module_t`): the mask
returned by `views()` and whether the `gui_post_expose` hook is set. -/
structure dt_lib_module_t where
  views : Nat
  gui_post_expose : Bool
deriving DecidableEq

/-- Constants and host functions used by `expose`; their declarations are not
in this file of the repository. -/
structure ExposeHost where
  DT_VIEW_TETHERING : Nat
  DT_IMAGE_WINDOW_SIZE : Int
  DT_VIEW_DESERT : Nat
  dt_view_film_strip_get_active_image : Int
  dt_image_cache_get : Int → Bool
  dt_view_image_expose : Nat → Int → Int → Int → Int → Int → Nat

/-- Calls made by `expose` on the drawing context and on library modules.
Floating point arguments are kept as the integers they are computed from
(`translate_half_x d` is a translation by `d * .5f`). A module is named by its position in the plugin list. -/
inductive DrawEvent where
  | set_source_rgb : DrawEvent
  | rectangle (width height : Int) : DrawEvent
  | fill : DrawEvent
  | translate_half_x (d : Int) : DrawEvent
  | translate_half_y (d : Int) : DrawEvent
  | translate_y (d : Int) : DrawEvent
  | image_expose (imgid : Int) (width height pointerx pointery : Int) : DrawEvent
  | image_cache_release (imgid : Int) : DrawEvent
  | gui_post_expose (module : Nat) (width height pointerx pointery : Int) : DrawEvent
deriving DecidableEq

/-- `view(self)`. -/
def view (h : ExposeHost) : Nat :=
  h.DT_VIEW_TETHERING

/-- `_expose_tethered_mode`, with `TOP_MARGIN = BOTTOM_MARGIN = 20`. -/
def _expose_tethered_mode (h : ExposeHost) (lib : dt_capture_t) (width height pointerx pointery : Int) :
    dt_capture_t × List DrawEvent :=
  let image_id := to_uint32 h.dt_view_film_strip_get_active_image
  let lib1 := { lib with image_over := h.DT_VIEW_DESERT, image_id := image_id.toNat }
  if image_id ≥ 0 then
    if h.dt_image_cache_get image_id = true then
      let over := h.dt_view_image_expose lib1.image_over image_id width (height - 20 - 20)
        pointerx pointery
      ({ lib1 with image_over := over },
        [DrawEvent.translate_y 20,
         DrawEvent.image_expose image_id width (height - 20 - 20) pointerx pointery,
         DrawEvent.translate_y (-20),
         DrawEvent.image_cache_release image_id])
    else
      (lib1, [])
  else
    (lib1, [])

/-- The `while(modules)` loop of `expose`: post expose to modules. The first
argument is the position of the head of the remaining list. -/
def post_expose_modules (h : ExposeHost) (width height pointerx pointery : Int) :
    Nat → List dt_lib_module_t → List DrawEvent
  | _, [] => []
  | i, module :: modules =>
    (if (module.views &&& view h ≠ 0) ∧ module.gui_post_expose = true then
      [DrawEvent.gui_post_expose i width height pointerx pointery]
    else
      []) ++ post_expose_modules h width height pointerx pointery (i + 1) modules

/-- `expose(self, cri, width_i, height_i, pointerx, pointery)` over the plugin
list `darktable.lib->plugins`. -/
def expose (h : ExposeHost) (plugins : List dt_lib_module_t) (lib : dt_capture_t)
    (width_i height_i pointerx pointery : Int) : dt_capture_t × List DrawEvent :=
  let width := min width_i h.DT_IMAGE_WINDOW_SIZE
  let height := min height_i h.DT_IMAGE_WINDOW_SIZE
  let fill := [DrawEvent.set_source_rgb, DrawEvent.rectangle width_i height_i, DrawEvent.fill]
  let tx :=
    if width_i > h.DT_IMAGE_WINDOW_SIZE then
      [DrawEvent.translate_half_x (-(h.DT_IMAGE_WINDOW_SIZE - width_i))]
    else []
  let ty :=
    if height_i > h.DT_IMAGE_WINDOW_SIZE then
      [DrawEvent.translate_half_y (-(h.DT_IMAGE_WINDOW_SIZE - height_i))]
    else []
  -- Mode dependent expose of center view: every mode is drawn as tethered
  let r := _expose_tethered_mode h lib width height pointerx pointery
  (r.1, fill ++ tx ++ ty ++ r.2 ++ post_expose_modules h width height pointerx pointery 0 plugins)

/-- The event is a call of a module's `gui_post_expose` hook. -/
def DrawEvent.is_post_expose : DrawEvent → Bool
  | DrawEvent.gui_post_expose _ _ _ _ _ => true
  | _ => false

/-! ## Concrete instances -/

/-- Joining two path elements with one separator. -/
def join_path (a b : String) : String :=
  a ++ "/" ++ b

/-- A view record as `init` leaves it, with a session path. -/
def sample_view : dt_capture_t :=
  { image_id := 0
    image_over := 0
    mode := 0
    vp := { filename := none, jobcode := none, sequence := 0, result := "" }
    basedirectory := "base"
    subdirectory := "sub"
    filenamepattern := "img"
    path := "dir"
    jobcode := none
    film := film_ptr.null }

/-- A host whose film calls succeed: reopening fills the directory name,
directories can be created, and a new filmroll gets the id 7. -/
def good_host : Host :=
  { subst := fun _ jobcode _ source => source ++ "/" ++ jobcode.getD ""
    g_build_path := join_path
    dt_film_init := { id := -1, dirname := "" }
    dt_film_is_empty := fun _ => 0
    dt_film_open2 := fun f => (0, { f with dirname := "old" })
    g_mkdir_with_parents := fun _ => 0
    dt_film_new := fun f _ => (7, { f with id := 7 }) }

/-- A host on which the stored filmroll cannot be reopened. -/
def stale_host : Host :=
  { good_host with dt_film_open2 := fun f => (1, f) }

/-- A host on which the session directory cannot be created. -/
def readonly_host : Host :=
  { good_host with g_mkdir_with_parents := fun _ => -1 }

/-- A world without a stored filmroll. -/
def fresh_world : World :=
  { current_filmroll := -1, trace := [] }

/-- A world whose configuration names the stored filmroll 3. -/
def stored_world : World :=
  { current_filmroll := 3, trace := [] }

/-! ## Lemmas on the collision loop -/

/-- The session path plays no part in the name that
`dt_capture_view_get_session_filename` returns: its expansion is overwritten
before the first test. -/
theorem get_session_filename_path_unused (subst : Subst) (bp : String → String → String)
    (ft : String → Bool) (fuel : Nat) (cv : dt_capture_t) (filename path : String) :
    dt_capture_view_get_session_filename subst bp ft fuel { cv with path := path } filename =
      (dt_capture_view_get_session_filename subst bp ft fuel cv filename).map
        (fun r => (r.1, { r.2 with path := path })) := by
  unfold dt_capture_view_get_session_filename
  simp only [dt_variables_expand, dt_variables_get_result, if_true, Bool.false_eq_true, if_false]
  by_cases hc : ft (bp (subst (some filename) cv.vp.jobcode (cv.vp.sequence + 1) cv.filenamepattern)
      (subst (some filename) cv.vp.jobcode (cv.vp.sequence + 1) cv.filenamepattern)) = true
  · simp [hc, Option.map_map, Function.comp_def]
  · simp [hc]

/-! ## Session file name: the claims -/

/-- C6: `dt_capture_view_get_film_id` returns the id of the view's active film
(as `uint32_t`, the id itself in that range) when a film is set, returns 1
when no film is set, and leaves the view record as it was. -/
theorem C6_get_film_id (cv : dt_capture_t) :
    (∀ f, cv.film = film_ptr.live f →
      (dt_capture_view_get_film_id cv).1 = some (to_uint32 f.id) ∧
      (0 ≤ f.id → f.id < 4294967296 → (dt_capture_view_get_film_id cv).1 = some f.id)) ∧
    (cv.film = film_ptr.null → (dt_capture_view_get_film_id cv).1 = some 1) ∧
    (dt_capture_view_get_film_id cv).2 = cv := by
  refine ⟨?_, ?_, ?_⟩
  · intro f hf
    unfold dt_capture_view_get_film_id
    rw [hf]
    refine ⟨rfl, ?_⟩
    intro h0 h1
    simp only [to_uint32]
    rw [Int.emod_eq_of_lt h0 h1]
  · intro hf
    unfold dt_capture_view_get_film_id
    rw [hf]
  · unfold dt_capture_view_get_film_id
    cases cv.film <;> rfl

theorem C6_get_film_id_witness :
    ((dt_capture_view_get_film_id { sample_view with film := film_ptr.live ⟨7, "dir"⟩ }).1
        = some (to_uint32 7) ∧
      (dt_capture_view_get_film_id { sample_view with film := film_ptr.live ⟨7, "dir"⟩ }).1
        = some 7) ∧
    (dt_capture_view_get_film_id sample_view).1 = some 1 ∧
    (dt_capture_view_get_film_id sample_view).2 = sample_view :=
  ⟨⟨((C6_get_film_id { sample_view with film := film_ptr.live ⟨7, "dir"⟩ }).1
        ⟨7, "dir"⟩ rfl).1,
    ((C6_get_film_id { sample_view with film := film_ptr.live ⟨7, "dir"⟩ }).1
        ⟨7, "dir"⟩ rfl).2 (by decide) (by decide)⟩,
   (C6_get_film_id sample_view).2.1 rfl,
   (C6_get_film_id sample_view).2.2⟩

/-! ## Session initialisation: lemmas -/

theorem previous_filmroll_eq (h : Host) (w : World) (p : film_ptr) (hp : p ≠ film_ptr.freed) :
    previous_filmroll h w p =
      some { current_filmroll := w.current_filmroll,
             trace := w.trace ++ previous_filmroll_events h p } := by
  cases p with
  | null => simp [previous_filmroll, previous_filmroll_events]
  | live f =>
    by_cases he : h.dt_film_is_empty f.id = 0
    · simp [previous_filmroll, previous_filmroll_events, he, World.emit]
    · simp [previous_filmroll, previous_filmroll_events, he, World.emit]
  | freed => exact absurd rfl hp

theorem set_jobcode_reopened (h : Host) (w : World) (cv : dt_capture_t) (name : String)
    (hp : cv.film ≠ film_ptr.freed) (hcur : 0 ≤ w.current_filmroll)
    (hopen : reopen_code h w.current_filmroll = 0) :
    dt_capture_view_set_jobcode h w cv name =
      some ({ cv with path := (session_film h w).dirname, film := film_ptr.live (session_film h w) },
            { current_filmroll := w.current_filmroll,
              trace := w.trace ++ previous_filmroll_events h cv.film }) := by
  unfold reopen_code at hopen
  have hne : ¬ (w.current_filmroll = -1) := by omega
  simp [dt_capture_view_set_jobcode, previous_filmroll_eq h w cv.film hp, reopen_filmroll,
    dt_conf_get_current_filmroll, hcur, hopen, hne, session_film]

theorem set_jobcode_new_session (h : Host) (w : World) (cv : dt_capture_t) (name : String)
    (hp : cv.film ≠ film_ptr.freed) (hnew : starts_new_session h w) :
    dt_capture_view_set_jobcode h w cv name =
      some (new_session h
        { current_filmroll := -1,
          trace := w.trace ++ previous_filmroll_events h cv.film ++
            (if w.current_filmroll ≥ 0 then [Event.conf_set_current_filmroll (-1)] else []) }
        cv (session_film h w) name) := by
  rcases hnew with hcur | ⟨hcur, hopen⟩
  · have hlt : ¬ (0 ≤ w.current_filmroll) := by omega
    simp [dt_capture_view_set_jobcode, previous_filmroll_eq h w cv.film hp, reopen_filmroll,
      dt_conf_get_current_filmroll, hcur, session_film]
  · unfold reopen_code at hopen
    simp [dt_capture_view_set_jobcode, previous_filmroll_eq h w cv.film hp, reopen_filmroll,
      dt_conf_get_current_filmroll, hcur, hopen, session_film, dt_conf_set_current_filmroll]

theorem new_session_trace (h : Host) (w : World) (cv : dt_capture_t) (film : dt_film_t)
    (name : String) :
    (new_session h w cv film name).2.trace =
      w.trace ++ Event.mkdir_with_parents (session_dirname h cv name) ::
        after_mkdir_events h cv film name := by
  unfold after_mkdir_events
  by_cases hmk : h.g_mkdir_with_parents (session_dirname h cv name) = -1
  · rw [if_pos hmk]
    unfold session_dirname at hmk
    simp [new_session, hmk, World.emit, session_dirname]
  · rw [if_neg hmk]
    by_cases hpos : (h.dt_film_new { film with dirname := session_dirname h cv name }
        (session_dirname h cv name)).1 > 0
    · rw [if_pos hpos]
      unfold session_dirname at hmk hpos
      simp [new_session, hmk, World.emit, session_dirname, hpos, dt_conf_set_current_filmroll]
    · rw [if_neg hpos]
      unfold session_dirname at hmk hpos
      simp [new_session, hmk, World.emit, session_dirname, hpos, dt_conf_set_current_filmroll]

theorem new_session_view (h : Host) (w : World) (cv : dt_capture_t) (film : dt_film_t)
    (name : String) :
    (new_session h w cv film name).1 =
      { cv with jobcode := some name,
                vp := dt_variables_expand h.subst
                  (dt_variables_reset_sequence { cv.vp with jobcode := some name })
                  (h.g_build_path cv.basedirectory cv.subdirectory) false,
                path := h.g_build_path cv.basedirectory cv.subdirectory,
                film :=
                  if h.g_mkdir_with_parents (session_dirname h cv name) = -1 then
                    film_ptr.freed
                  else
                    film_ptr.live
                      (h.dt_film_new { film with dirname := session_dirname h cv name }
                        (session_dirname h cv name)).2 } := by
  by_cases hmk : h.g_mkdir_with_parents (session_dirname h cv name) = -1
  · rw [if_pos hmk]
    unfold session_dirname at hmk
    simp [new_session, hmk]
  · rw [if_neg hmk]
    unfold session_dirname at hmk
    simp [new_session, hmk, session_dirname]

theorem new_session_conf (h : Host) (w : World) (cv : dt_capture_t) (film : dt_film_t)
    (name : String) :
    (new_session h w cv film name).2.current_filmroll =
      if h.g_mkdir_with_parents (session_dirname h cv name) ≠ -1 ∧
          (h.dt_film_new { film with dirname := session_dirname h cv name }
            (session_dirname h cv name)).1 > 0 then
        (h.dt_film_new { film with dirname := session_dirname h cv name }
          (session_dirname h cv name)).2.id
      else
        w.current_filmroll := by
  by_cases hmk : h.g_mkdir_with_parents (session_dirname h cv name) = -1
  · rw [if_neg (fun hc => hc.1 hmk)]
    unfold session_dirname at hmk
    simp [new_session, hmk, World.emit]
  · by_cases hpos : (h.dt_film_new { film with dirname := session_dirname h cv name }
        (session_dirname h cv name)).1 > 0
    · rw [if_pos ⟨hmk, hpos⟩]
      unfold session_dirname at hmk hpos
      simp [new_session, hmk, World.emit, hpos, dt_conf_set_current_filmroll, session_dirname]
    · rw [if_neg (fun hc => hpos hc.2)]
      unfold session_dirname at hmk hpos
      simp [new_session, hmk, World.emit, hpos, dt_conf_set_current_filmroll]

theorem set_jobcode_no_session (h : Host) (w : World) (cv : dt_capture_t) (name : String)
    (hp : cv.film ≠ film_ptr.freed) (hcur : w.current_filmroll < -1) :
    dt_capture_view_set_jobcode h w cv name =
      some ({ cv with film := film_ptr.live h.dt_film_init },
            { current_filmroll := w.current_filmroll,
              trace := w.trace ++ previous_filmroll_events h cv.film }) := by
  have hlt : ¬ (0 ≤ w.current_filmroll) := by omega
  have hne : ¬ (w.current_filmroll = -1) := by omega
  simp [dt_capture_view_set_jobcode, previous_filmroll_eq h w cv.film hp, reopen_filmroll,
    dt_conf_get_current_filmroll, hlt, hne]

theorem set_jobcode_cases (h : Host) (w : World) :
    (0 ≤ w.current_filmroll ∧ reopen_code h w.current_filmroll = 0) ∨
      starts_new_session h w ∨ w.current_filmroll < -1 := by
  unfold starts_new_session
  by_cases hcur : 0 ≤ w.current_filmroll
  · by_cases hopen : reopen_code h w.current_filmroll = 0
    · exact Or.inl ⟨hcur, hopen⟩
    · exact Or.inr (Or.inl (Or.inr ⟨hcur, hopen⟩))
  · by_cases hm : w.current_filmroll = -1
    · exact Or.inr (Or.inl (Or.inl hm))
    · exact Or.inr (Or.inr (by omega))

theorem not_starts_new_session_of_reopened (h : Host) (w : World)
    (hcur : 0 ≤ w.current_filmroll) (hopen : reopen_code h w.current_filmroll = 0) :
    ¬ starts_new_session h w := by
  unfold starts_new_session
  rintro (hm | ⟨_, hne⟩)
  · omega
  · exact hne hopen

theorem mkdir_calls_previous (h : Host) (p : film_ptr) :
    mkdir_calls (previous_filmroll_events h p) = [] := by
  cases p with
  | null => rfl
  | live f =>
    by_cases he : h.dt_film_is_empty f.id = 0 <;>
      simp [previous_filmroll_events, he, mkdir_calls]
  | freed => rfl

theorem film_new_calls_previous (h : Host) (p : film_ptr) :
    film_new_calls (previous_filmroll_events h p) = [] := by
  cases p with
  | null => rfl
  | live f =>
    by_cases he : h.dt_film_is_empty f.id = 0 <;>
      simp [previous_filmroll_events, he, film_new_calls]
  | freed => rfl

theorem mkdir_calls_append (a b : List Event) :
    mkdir_calls (a ++ b) = mkdir_calls a ++ mkdir_calls b := by
  simp [mkdir_calls, List.filterMap_append]

theorem film_new_calls_append (a b : List Event) :
    film_new_calls (a ++ b) = film_new_calls a ++ film_new_calls b := by
  simp [film_new_calls, List.filterMap_append]

theorem mkdir_calls_after_mkdir (h : Host) (cv : dt_capture_t) (film : dt_film_t) (name : String) :
    mkdir_calls (after_mkdir_events h cv film name) = [] := by
  unfold after_mkdir_events
  by_cases hmk : h.g_mkdir_with_parents (session_dirname h cv name) = -1
  · rw [if_pos hmk]
    rfl
  · rw [if_neg hmk]
    by_cases hpos : (h.dt_film_new { film with dirname := session_dirname h cv name }
        (session_dirname h cv name)).1 > 0
    · rw [if_pos hpos]
      rfl
    · rw [if_neg hpos]
      rfl

theorem film_new_calls_after_mkdir (h : Host) (cv : dt_capture_t) (film : dt_film_t)
    (name : String) :
    film_new_calls (after_mkdir_events h cv film name) =
      if h.g_mkdir_with_parents (session_dirname h cv name) = -1 then []
      else [({ film with dirname := session_dirname h cv name }, session_dirname h cv name)] := by
  unfold after_mkdir_events
  by_cases hmk : h.g_mkdir_with_parents (session_dirname h cv name) = -1
  · rw [if_pos hmk, if_pos hmk]
    rfl
  · rw [if_neg hmk, if_neg hmk]
    by_cases hpos : (h.dt_film_new { film with dirname := session_dirname h cv name }
        (session_dirname h cv name)).1 > 0
    · rw [if_pos hpos]
      rfl
    · rw [if_neg hpos]
      rfl

theorem mkdir_calls_reset (b : Prop) [Decidable b] :
    mkdir_calls (if b then [Event.conf_set_current_filmroll (-1)] else []) = [] := by
  by_cases hb : b
  · rw [if_pos hb]
    rfl
  · rw [if_neg hb]
    rfl

theorem film_new_calls_reset (b : Prop) [Decidable b] :
    film_new_calls (if b then [Event.conf_set_current_filmroll (-1)] else []) = [] := by
  by_cases hb : b
  · rw [if_pos hb]
    rfl
  · rw [if_neg hb]
    rfl

theorem mkdir_calls_cons_mkdir (d : String) (t : List Event) :
    mkdir_calls (Event.mkdir_with_parents d :: t) = d :: mkdir_calls t := rfl

theorem film_new_calls_cons_mkdir (d : String) (t : List Event) :
    film_new_calls (Event.mkdir_with_parents d :: t) = film_new_calls t := rfl

/-! ## Session initialisation: the claims -/

/-- C2, evaluated where the session directory cannot be created: the call
logs the failure and makes no filmroll and no configuration write, but the
view's film pointer is left pointing at the released record, not NULL, so
`dt_capture_view_get_film_id` does not return the fallback value 1. -/
theorem C2_mkdir_failure_leaves_released_film :
    ∃ cv' w',
      dt_capture_view_set_jobcode readonly_host fresh_world sample_view "job" = some (cv', w') ∧
      w'.trace = [Event.mkdir_with_parents "base/sub/job",
                  Event.log_failed_session_path "base/sub/job"] ∧
      film_new_calls w'.trace = [] ∧
      conf_writes w'.trace = [] ∧
      w'.current_filmroll = -1 ∧
      cv'.film = film_ptr.freed ∧
      cv'.film ≠ film_ptr.null ∧
      (dt_capture_view_get_film_id cv').1 ≠ some 1 :=
  ⟨_, _, rfl, by decide, by decide, by decide, by decide, by decide, by decide, by decide⟩

/-- C3 as stated fails: on a host where the stored filmroll 3 does not
reopen, the call creates the session directory and a new filmroll, and
returns with that filmroll active. -/
theorem C3_counterexample :
    0 ≤ stored_world.current_filmroll ∧
    reopen_code stale_host stored_world.current_filmroll ≠ 0 ∧
    ∃ cv' w',
      dt_capture_view_set_jobcode stale_host stored_world sample_view "job" = some (cv', w') ∧
      mkdir_calls w'.trace = ["base/sub/job"] ∧
      film_new_calls w'.trace = [(⟨3, "base/sub/job"⟩, "base/sub/job")] ∧
      log_calls w'.trace = [Event.log_new_session (some "job") 7] ∧
      cv'.film = film_ptr.live ⟨7, "base/sub/job"⟩ ∧
      (dt_capture_view_get_film_id cv').1 = some 7 :=
  ⟨by decide, by decide, _, _, rfl, by decide, by decide, by decide, by decide, by decide⟩

/-- C3, amended: when the stored current filmroll fails to open, the call
resets the configuration key to -1 and goes on, in the same call, to start a
new session: it replaces the job code and attempts to create the session
directory right after the reset, and when the directory is created it makes
a new filmroll in it, which becomes the view's film. -/
theorem C3_failed_reopen_starts_new_session (h : Host) (w : World) (cv : dt_capture_t)
    (name : String) (hp : cv.film ≠ film_ptr.freed) (hcur : 0 ≤ w.current_filmroll)
    (hopen : reopen_code h w.current_filmroll ≠ 0) :
    ∃ cv' w' rest,
      dt_capture_view_set_jobcode h w cv name = some (cv', w') ∧
      w'.trace = w.trace ++ previous_filmroll_events h cv.film ++
        Event.conf_set_current_filmroll (-1) ::
          Event.mkdir_with_parents (session_dirname h cv name) :: rest ∧
      dt_capture_view_get_jobcode cv' = some name ∧
      (h.g_mkdir_with_parents (session_dirname h cv name) ≠ -1 →
        film_new_calls rest =
          [({ session_film h w with dirname := session_dirname h cv name },
            session_dirname h cv name)] ∧
        cv'.film = film_ptr.live
          (h.dt_film_new { session_film h w with dirname := session_dirname h cv name }
            (session_dirname h cv name)).2) := by
  have hnew : starts_new_session h w := Or.inr ⟨hcur, hopen⟩
  have hge : w.current_filmroll ≥ 0 := hcur
  have hset := set_jobcode_new_session h w cv name hp hnew
  rw [if_pos hge] at hset
  refine ⟨(new_session h _ cv (session_film h w) name).1,
    (new_session h _ cv (session_film h w) name).2,
    after_mkdir_events h cv (session_film h w) name, hset, ?_, ?_, ?_⟩
  · rw [new_session_trace]
    simp
  · rw [new_session_view]
    rfl
  · intro hok
    rw [new_session_view, if_neg hok]
    refine ⟨?_, rfl⟩
    unfold after_mkdir_events
    rw [if_neg hok]
    by_cases hpos : (h.dt_film_new { session_film h w with dirname := session_dirname h cv name }
        (session_dirname h cv name)).1 > 0
    · simp [film_new_calls, hpos]
    · simp [film_new_calls, hpos]

theorem C3_failed_reopen_starts_new_session_witness :
    ∃ cv' w' rest,
      dt_capture_view_set_jobcode stale_host stored_world sample_view "job" = some (cv', w') ∧
      w'.trace = stored_world.trace ++ previous_filmroll_events stale_host sample_view.film ++
        Event.conf_set_current_filmroll (-1) ::
          Event.mkdir_with_parents (session_dirname stale_host sample_view "job") :: rest ∧
      dt_capture_view_get_jobcode cv' = some "job" ∧
      film_new_calls rest =
        [({ session_film stale_host stored_world with
              dirname := session_dirname stale_host sample_view "job" },
          session_dirname stale_host sample_view "job")] ∧
      cv'.film = film_ptr.live
        (stale_host.dt_film_new
          { session_film stale_host stored_world with
              dirname := session_dirname stale_host sample_view "job" }
          (session_dirname stale_host sample_view "job")).2 := by
  obtain ⟨cv', w', rest, hset, htrace, hjob, hok⟩ :=
    C3_failed_reopen_starts_new_session stale_host stored_world sample_view "job"
      (by decide) (by decide) (by decide)
  exact ⟨cv', w', rest, hset, htrace, hjob, hok (by decide)⟩

theorem new_session_filenamepattern (h : Host) (w : World) (cv : dt_capture_t) (film : dt_film_t)
    (name pattern : String) :
    new_session h w { cv with filenamepattern := pattern } film name =
      ({ (new_session h w cv film name).1 with filenamepattern := pattern },
        (new_session h w cv film name).2) := by
  unfold new_session
  by_cases hmk : h.g_mkdir_with_parents
      (dt_variables_get_result
        (dt_variables_expand h.subst
          (dt_variables_reset_sequence { cv.vp with jobcode := some name })
          (h.g_build_path cv.basedirectory cv.subdirectory) false)) = -1
  · simp [hmk]
  · simp [hmk]

/-- C4: when `dt_capture_view_set_jobcode` starts a new session, the directory
it attempts to create, and records in the film record handed to
`dt_film_new`, is the expansion (job code `name`, sequence 0) of the base
directory joined with the subdirectory pattern; the file name pattern plays
no part: with any other pattern the call makes the same calls and returns
the same view record, the pattern apart. -/
theorem C4_session_directory (h : Host) (w : World) (cv : dt_capture_t) (name : String)
    (hp : cv.film ≠ film_ptr.freed) (hnew : starts_new_session h w) :
    session_dirname h cv name =
      h.subst cv.vp.filename (some name) 0 (h.g_build_path cv.basedirectory cv.subdirectory) ∧
    (∃ cv' w', dt_capture_view_set_jobcode h w cv name = some (cv', w') ∧
      cv'.path = h.g_build_path cv.basedirectory cv.subdirectory ∧
      mkdir_calls w'.trace = mkdir_calls w.trace ++ [session_dirname h cv name] ∧
      film_new_calls w'.trace = film_new_calls w.trace ++
        (if h.g_mkdir_with_parents (session_dirname h cv name) = -1 then []
         else [({ session_film h w with dirname := session_dirname h cv name },
                session_dirname h cv name)])) ∧
    (∀ pattern,
      dt_capture_view_set_jobcode h w { cv with filenamepattern := pattern } name =
        (dt_capture_view_set_jobcode h w cv name).map
          (fun r => ({ r.1 with filenamepattern := pattern }, r.2))) := by
  have hset := set_jobcode_new_session h w cv name hp hnew
  refine ⟨rfl, ?_, ?_⟩
  · refine ⟨(new_session h _ cv (session_film h w) name).1,
      (new_session h _ cv (session_film h w) name).2, hset, ?_, ?_, ?_⟩
    · rw [new_session_view]
    · rw [new_session_trace]
      simp only [mkdir_calls_append, mkdir_calls_cons_mkdir, mkdir_calls_previous,
        mkdir_calls_reset, mkdir_calls_after_mkdir, List.append_nil]
    · rw [new_session_trace]
      simp only [film_new_calls_append, film_new_calls_cons_mkdir, film_new_calls_previous,
        film_new_calls_reset, film_new_calls_after_mkdir, List.append_nil]
  · intro pattern
    rw [hset, set_jobcode_new_session h w { cv with filenamepattern := pattern } name hp hnew,
      new_session_filenamepattern]
    rfl

theorem C4_session_directory_witness :
    session_dirname good_host sample_view "job" =
      good_host.subst sample_view.vp.filename (some "job") 0
        (good_host.g_build_path sample_view.basedirectory sample_view.subdirectory) ∧
    (∃ cv' w', dt_capture_view_set_jobcode good_host fresh_world sample_view "job" = some (cv', w') ∧
      cv'.path = good_host.g_build_path sample_view.basedirectory sample_view.subdirectory ∧
      mkdir_calls w'.trace = mkdir_calls fresh_world.trace ++ [session_dirname good_host sample_view "job"] ∧
      film_new_calls w'.trace = film_new_calls fresh_world.trace ++
        (if good_host.g_mkdir_with_parents (session_dirname good_host sample_view "job") = -1 then []
         else [({ session_film good_host fresh_world with
                    dirname := session_dirname good_host sample_view "job" },
                session_dirname good_host sample_view "job")])) ∧
    (∀ pattern,
      dt_capture_view_set_jobcode good_host fresh_world
          { sample_view with filenamepattern := pattern } "job" =
        (dt_capture_view_set_jobcode good_host fresh_world sample_view "job").map
          (fun r => ({ r.1 with filenamepattern := pattern }, r.2))) :=
  C4_session_directory good_host fresh_world sample_view "job" (by decide) (by decide)

theorem session_film_id (h : Host) (w : World) (hid : ∀ f, (h.dt_film_open2 f).2.id = f.id)
    (hcur : 0 ≤ w.current_filmroll) : (session_film h w).id = w.current_filmroll := by
  have hge : w.current_filmroll ≥ 0 := hcur
  unfold session_film
  rw [if_pos hge, hid]

/-- C5: provided reopening a film record keeps its id, whenever
`dt_capture_view_set_jobcode` returns with an opened filmroll (the stored
filmroll reopened, or the new session's directory was created and
`dt_film_new` returned a positive id) the key
`plugins/capture/current_filmroll` equals the id of the view's film; and
when opening the stored filmroll failed, the key is set to -1 right before
the session directory of the new session is created. -/
theorem C5_current_filmroll_key (h : Host) (w : World) (cv : dt_capture_t) (name : String)
    (hp : cv.film ≠ film_ptr.freed) (hid : ∀ f, (h.dt_film_open2 f).2.id = f.id) :
    ∃ cv' w', dt_capture_view_set_jobcode h w cv name = some (cv', w') ∧
      ((0 ≤ w.current_filmroll ∧ reopen_code h w.current_filmroll = 0) →
        ∃ f, cv'.film = film_ptr.live f ∧ dt_conf_get_current_filmroll w' = f.id) ∧
      ((starts_new_session h w ∧ h.g_mkdir_with_parents (session_dirname h cv name) ≠ -1 ∧
          (h.dt_film_new { session_film h w with dirname := session_dirname h cv name }
            (session_dirname h cv name)).1 > 0) →
        ∃ f, cv'.film = film_ptr.live f ∧ dt_conf_get_current_filmroll w' = f.id) ∧
      ((0 ≤ w.current_filmroll ∧ reopen_code h w.current_filmroll ≠ 0) →
        ∃ rest, w'.trace = w.trace ++ previous_filmroll_events h cv.film ++
          Event.conf_set_current_filmroll (-1) ::
            Event.mkdir_with_parents (session_dirname h cv name) :: rest) := by
  rcases set_jobcode_cases h w with hre | hnew | hlt
  · refine ⟨_, _, set_jobcode_reopened h w cv name hp hre.1 hre.2, ?_, ?_, ?_⟩
    · intro _
      exact ⟨session_film h w, rfl, (session_film_id h w hid hre.1).symm⟩
    · intro hc
      exact absurd hc.1 (not_starts_new_session_of_reopened h w hre.1 hre.2)
    · intro hc
      exact absurd hre.2 hc.2
  · have hset := set_jobcode_new_session h w cv name hp hnew
    refine ⟨(new_session h _ cv (session_film h w) name).1,
      (new_session h _ cv (session_film h w) name).2, hset, ?_, ?_, ?_⟩
    · intro hc
      exact absurd hnew (not_starts_new_session_of_reopened h w hc.1 hc.2)
    · intro hc
      refine ⟨(h.dt_film_new { session_film h w with dirname := session_dirname h cv name }
        (session_dirname h cv name)).2, ?_, ?_⟩
      · rw [new_session_view, if_neg hc.2.1]
      · unfold dt_conf_get_current_filmroll
        rw [new_session_conf, if_pos ⟨hc.2.1, hc.2.2⟩]
    · intro hc
      have hge : w.current_filmroll ≥ 0 := hc.1
      refine ⟨after_mkdir_events h cv (session_film h w) name, ?_⟩
      rw [new_session_trace]
      simp [hge]
  · refine ⟨_, _, set_jobcode_no_session h w cv name hp hlt, ?_, ?_, ?_⟩
    · intro hc
      omega
    · intro hc
      rcases hc.1 with hm | ⟨hge, _⟩ <;> omega
    · intro hc
      omega

theorem C5_current_filmroll_key_witness :
    (∃ cv' w', dt_capture_view_set_jobcode good_host stored_world sample_view "job" =
        some (cv', w') ∧
      ∃ f, cv'.film = film_ptr.live f ∧ dt_conf_get_current_filmroll w' = f.id) ∧
    (∃ cv' w', dt_capture_view_set_jobcode stale_host stored_world sample_view "job" =
        some (cv', w') ∧
      (∃ f, cv'.film = film_ptr.live f ∧ dt_conf_get_current_filmroll w' = f.id) ∧
      ∃ rest, w'.trace = stored_world.trace ++
        previous_filmroll_events stale_host sample_view.film ++
        Event.conf_set_current_filmroll (-1) ::
          Event.mkdir_with_parents (session_dirname stale_host sample_view "job") :: rest) := by
  refine ⟨?_, ?_⟩
  · obtain ⟨cv', w', hset, hre, _, _⟩ :=
      C5_current_filmroll_key good_host stored_world sample_view "job" (by decide) (fun _ => rfl)
    exact ⟨cv', w', hset, hre ⟨by decide, by decide⟩⟩
  · obtain ⟨cv', w', hset, _, hnew, hreset⟩ :=
      C5_current_filmroll_key stale_host stored_world sample_view "job" (by decide) (fun _ => rfl)
    exact ⟨cv', w', hset, hnew ⟨by decide, by decide, by decide⟩, hreset ⟨by decide, by decide⟩⟩

/-- C9: if the stored current filmroll reopens, `dt_capture_view_set_jobcode`
ignores `name`: the job code and the whole expansion context, sequence
counter included, are unchanged, so `dt_capture_view_get_jobcode` returns the
previous job code. In the new-session branch the job code is replaced, so
`dt_capture_view_get_jobcode` returns `name`, and the sequence counter is
zero. -/
theorem C9_jobcode_frame (h : Host) (w : World) (cv : dt_capture_t) (name : String)
    (hp : cv.film ≠ film_ptr.freed) :
    ∃ cv' w', dt_capture_view_set_jobcode h w cv name = some (cv', w') ∧
      ((0 ≤ w.current_filmroll ∧ reopen_code h w.current_filmroll = 0) →
        dt_capture_view_get_jobcode cv' = dt_capture_view_get_jobcode cv ∧
        cv'.vp = cv.vp ∧ cv'.vp.sequence = cv.vp.sequence) ∧
      (starts_new_session h w →
        dt_capture_view_get_jobcode cv' = some name ∧
        cv'.vp.jobcode = some name ∧ cv'.vp.sequence = 0) := by
  rcases set_jobcode_cases h w with hre | hnew | hlt
  · refine ⟨_, _, set_jobcode_reopened h w cv name hp hre.1 hre.2, ?_, ?_⟩
    · intro _
      exact ⟨rfl, rfl, rfl⟩
    · intro hc
      exact absurd hc (not_starts_new_session_of_reopened h w hre.1 hre.2)
  · have hset := set_jobcode_new_session h w cv name hp hnew
    refine ⟨(new_session h _ cv (session_film h w) name).1,
      (new_session h _ cv (session_film h w) name).2, hset, ?_, ?_⟩
    · intro hc
      exact absurd hnew (not_starts_new_session_of_reopened h w hc.1 hc.2)
    · intro _
      rw [new_session_view]
      exact ⟨rfl, rfl, rfl⟩
  · refine ⟨_, _, set_jobcode_no_session h w cv name hp hlt, ?_, ?_⟩
    · intro hc
      omega
    · intro hc
      rcases hc with hm | ⟨hge, _⟩ <;> omega

theorem C9_jobcode_frame_witness :
    (∃ cv' w', dt_capture_view_set_jobcode good_host stored_world
        { sample_view with jobcode := some "old" } "job" = some (cv', w') ∧
      dt_capture_view_get_jobcode cv' = some "old" ∧
      cv'.vp = sample_view.vp ∧ cv'.vp.sequence = sample_view.vp.sequence) ∧
    (∃ cv' w', dt_capture_view_set_jobcode good_host fresh_world
        { sample_view with jobcode := some "old" } "job" = some (cv', w') ∧
      dt_capture_view_get_jobcode cv' = some "job" ∧
      cv'.vp.jobcode = some "job" ∧ cv'.vp.sequence = 0) := by
  refine ⟨?_, ?_⟩
  · obtain ⟨cv', w', hset, hre, _⟩ :=
      C9_jobcode_frame good_host stored_world { sample_view with jobcode := some "old" } "job"
        (by decide)
    exact ⟨cv', w', hset, hre ⟨by decide, by decide⟩⟩
  · obtain ⟨cv', w', hset, _, hnew⟩ :=
      C9_jobcode_frame good_host fresh_world { sample_view with jobcode := some "old" } "job"
        (by decide)
    exact ⟨cv', w', hset, hnew (by decide)⟩

/-! ## Render hook: the claim -/

theorem land_ne_zero_iff (a b : Nat) :
    a &&& b ≠ 0 ↔ ∃ i, a.testBit i = true ∧ b.testBit i = true := by
  constructor
  · intro hne
    by_contra hno
    apply hne
    apply Nat.eq_of_testBit_eq
    intro i
    rw [Nat.testBit_and, Nat.zero_testBit]
    by_cases ha : a.testBit i = true
    · by_cases hb : b.testBit i = true
      · exact absurd ⟨i, ha, hb⟩ hno
      · simp [hb]
    · simp [ha]
  · rintro ⟨i, ha, hb⟩ hz
    have := Nat.testBit_and a b i
    rw [hz, Nat.zero_testBit, ha, hb] at this
    simp at this

theorem post_expose_modules_eq (h : ExposeHost) (width height pointerx pointery : Int)
    (i : Nat) (plugins : List dt_lib_module_t) :
    post_expose_modules h width height pointerx pointery i plugins =
      ((plugins.enumFrom i).filter
          (fun im => decide (im.2.views &&& h.DT_VIEW_TETHERING ≠ 0) && im.2.gui_post_expose)).map
        (fun im => DrawEvent.gui_post_expose im.1 width height pointerx pointery) := by
  induction plugins generalizing i with
  | nil => rfl
  | cons m ms ih =>
    rw [post_expose_modules, ih, List.enumFrom_cons, List.filter_cons]
    by_cases hv : m.views &&& h.DT_VIEW_TETHERING ≠ 0
    · by_cases hh : m.gui_post_expose = true
      · simp [view, hv, hh]
      · simp [view, hv, hh]
    · simp [view, hv]

theorem filter_post_expose_modules (h : ExposeHost) (width height pointerx pointery : Int)
    (i : Nat) (plugins : List dt_lib_module_t) :
    (post_expose_modules h width height pointerx pointery i plugins).filter
        DrawEvent.is_post_expose =
      post_expose_modules h width height pointerx pointery i plugins := by
  rw [List.filter_eq_self]
  intro e he
  rw [post_expose_modules_eq] at he
  obtain ⟨im, _, rfl⟩ := List.mem_map.mp he
  rfl

theorem filter_expose_tethered_mode (h : ExposeHost) (lib : dt_capture_t)
    (width height pointerx pointery : Int) :
    (_expose_tethered_mode h lib width height pointerx pointery).2.filter
        DrawEvent.is_post_expose = [] := by
  unfold _expose_tethered_mode
  by_cases h0 : to_uint32 h.dt_view_film_strip_get_active_image ≥ 0
  · by_cases h1 : h.dt_image_cache_get (to_uint32 h.dt_view_film_strip_get_active_image) = true
    · simp [h0, h1, DrawEvent.is_post_expose]
    · simp [h0, h1]
  · simp [h0]

/-- C8: for every plugin list and viewport size, `expose` invokes
`gui_post_expose` on exactly the library modules whose `views()` mask has a
bit in common with `DT_VIEW_TETHERING` and whose hook is set, once each and
in list order, with width `min(width_i, DT_IMAGE_WINDOW_SIZE)`, height
`min(height_i, DT_IMAGE_WINDOW_SIZE)` and the pointer coordinates as
given. -/
theorem C8_post_expose_dispatch (h : ExposeHost) (plugins : List dt_lib_module_t)
    (lib : dt_capture_t) (width_i height_i pointerx pointery : Int) :
    (expose h plugins lib width_i height_i pointerx pointery).2.filter DrawEvent.is_post_expose =
      (plugins.enum.filter
          (fun im => decide (im.2.views &&& h.DT_VIEW_TETHERING ≠ 0) && im.2.gui_post_expose)).map
        (fun im => DrawEvent.gui_post_expose im.1
          (min width_i h.DT_IMAGE_WINDOW_SIZE) (min height_i h.DT_IMAGE_WINDOW_SIZE)
          pointerx pointery) ∧
    (∀ im : Nat × dt_lib_module_t,
      (decide (im.2.views &&& h.DT_VIEW_TETHERING ≠ 0) && im.2.gui_post_expose) = true ↔
        (∃ i, im.2.views.testBit i = true ∧ (view h).testBit i = true) ∧
          im.2.gui_post_expose = true) := by
  refine ⟨?_, ?_⟩
  · unfold expose
    simp only [List.filter_append, filter_post_expose_modules, filter_expose_tethered_mode]
    rw [post_expose_modules_eq]
    by_cases hw : width_i > h.DT_IMAGE_WINDOW_SIZE <;>
      by_cases hh : height_i > h.DT_IMAGE_WINDOW_SIZE <;>
      simp [hw, hh, DrawEvent.is_post_expose, List.enum]
  · intro im
    simp only [Bool.and_eq_true, decide_eq_true_eq, land_ne_zero_iff, view]

end Capture
